import Mathlib

/-!
# Verification of the chess game-analysis pipeline (`src/app.py`)

A shallow embedding, in Lean 4, of the pure analysis pipeline of the
Chess Learning Coach application: the move classifier, the position
evaluator wrapper, the opening matcher, the tactical-motif detector, the
game-analysis orchestrator, and the report aggregator.  Python floats are
modelled as rationals (every arithmetic operation performed by the
pipeline — negation, subtraction, multiplication by 100, division —
is exact on the values involved), Python `int()` as truncation toward
zero, and fallible operations (Python division, the PGN parse, the
engine call) as `Option`-valued functions.
-/

namespace ChessCoach

/-- python-chess color convention: `chess.WHITE` is `True`,
`chess.BLACK` is `False`. -/
abbrev Color := Bool

/-- `chess.WHITE = True`. -/
def WHITE : Color := true

/-- `chess.BLACK = False`. -/
def BLACK : Color := false

/-- Python `int()` applied to a float value: truncation toward zero. -/
def pyInt (q : ℚ) : Int :=
  if 0 ≤ q then ⌊q⌋ else ⌈q⌉

/-- The record returned by `classify_move` (`src/app.py:1012`): the keys of
the Python dict become fields (`type`, `symbol`, `cp_loss`, `feedback`,
`teaching`, `color`). -/
structure Classification where
  type : String
  symbol : String
  cp_loss : Int
  feedback : String
  teaching : String
  color : String
deriving Repr, DecidableEq

/-- The color-normalized centipawn loss computed at the top of
`classify_move` (`src/app.py:1014-1018`): both evaluations are negated
when the mover is Black, then `loss = (eval_before - eval_after) * 100`. -/
def centipawn_loss_of (eval_before eval_after : ℚ) (player_color : Color) : ℚ :=
  ((if player_color = BLACK then -eval_before else eval_before) -
    (if player_color = BLACK then -eval_after else eval_after)) * 100

/-- The decision chain of `classify_move` (`src/app.py:1020-1078`),
branch by branch, as a function of the already-normalized centipawn
loss: brilliant / best / good / inaccuracy / mistake / blunder, first
matching rule wins. -/
def classifyCore (centipawn_loss : ℚ) (is_best_move : Bool) : Classification :=
  if centipawn_loss < -50 ∧ ¬ is_best_move then
    { type := "brilliant", symbol := "!!", cp_loss := pyInt centipawn_loss,
      feedback := "✨ Brilliant! A stunning move that significantly improves your position!",
      teaching := "This move shows exceptional tactical vision and deep calculation!",
      color := "#9333ea" }
  else if is_best_move ∨ centipawn_loss < 10 then
    { type := "best", symbol := "!", cp_loss := pyInt centipawn_loss,
      feedback := "✓ Best move! Excellent choice.",
      teaching := "Perfect execution - you found the engine\x27s top choice.",
      color := "#10b981" }
  else if centipawn_loss < 50 then
    { type := "good", symbol := "", cp_loss := pyInt centipawn_loss,
      feedback := "Good move maintaining your position.",
      teaching := "Solid play. Keep this accuracy up!",
      color := "#3b82f6" }
  else if centipawn_loss < 100 then
    { type := "inaccuracy", symbol := "?!", cp_loss := pyInt centipawn_loss,
      feedback := "⚠ Inaccuracy - a better move existed.",
      teaching := "Take more time here. Look for active piece moves and tactical opportunities.",
      color := "#f59e0b" }
  else if centipawn_loss < 300 then
    { type := "mistake", symbol := "?", cp_loss := pyInt centipawn_loss,
      feedback := "❌ Mistake! This weakens your position significantly.",
      teaching := "Before moving, check: 1) Are my pieces safe? 2) Am I creating weaknesses? 3) What can opponent do?",
      color := "#f97316" }
  else
    { type := "blunder", symbol := "??", cp_loss := pyInt centipawn_loss,
      feedback := "💥 Blunder! Critical error losing material or position.",
      teaching := "STOP and THINK! Always check for: Checks, Captures, Attacks on your pieces before moving!",
      color := "#ef4444" }

/-- `classify_move` (`src/app.py:1012-1078`): negate both evaluations
when the mover is Black, compute `centipawn_loss = (eval_before -
eval_after) * 100`, then run the decision chain (`classifyCore`).
`best_move_eval` is accepted and never read, exactly as in the source. -/
def classify_move (eval_before eval_after : ℚ) (is_best_move : Bool) (player_color : Color)
    (best_move_eval : Option ℚ := none) : Classification :=
  let eval_before := if player_color = BLACK then -eval_before else eval_before
  let eval_after := if player_color = BLACK then -eval_after else eval_after
  let centipawn_loss := (eval_before - eval_after) * 100
  classifyCore centipawn_loss is_best_move

/-- The nine-grade decision table exactly as §4.4 of the specification
words it (priority order, first matching rule wins, thresholds as the
spec states them).  This is the spec-side definition, kept only to be
compared against the source-side `classify_move`; it is NOT translated
from the code. -/
def classify_move_spec (eval_before eval_after : ℚ) (is_best_move is_book_move : Bool)
    (player_color : Color) : String :=
  let loss := centipawn_loss_of eval_before eval_after player_color
  if is_book_move then "theory"
  else if ¬ is_best_move ∧ loss ≤ 15 ∧ 20 ≤ -loss then "brilliant"
  else if ¬ is_best_move ∧ 0 ≤ loss ∧ loss ≤ 15 then "great"
  else if is_best_move ∨ loss < 10 then "best"
  else if loss < 25 then "excellent"
  else if loss < 50 then "good"
  else if loss < 100 then "inaccuracy"
  else if loss < 200 then "mistake"
  else "blunder"

/-! ### Position Evaluator (`analyze_position`, `src/app.py:709-767`)

The engine call itself (`st.session_state.engine.analyse(...)`) is an
external process; its outcome is modelled as an explicit parameter:
engine missing (`st.session_state.engine is None`), the call raising
(caught by the `except` clause), or a successful `multipv` response (a
list of info dicts, each with a pov score and a principal variation).
python-chess reports `info["score"].relative` from the perspective of
the side to move; we carry each line's objective White-perspective score
and the position's side to move, and compute `.relative` from them. -/

/-- A python-chess engine score: centipawns or forced-mate distance. -/
inductive Score where
  | cp (value : Int)
  | mate (moves : Int)
deriving Repr, DecidableEq

/-- python-chess score negation (pov change): `cp v ↦ cp (-v)`,
`mate n ↦ mate (-n)`. -/
def Score.neg : Score → Score
  | .cp v => .cp (-v)
  | .mate n => .mate (-n)

/-- `PovScore.relative` of python-chess: the stored score seen from the
side to move — the White-perspective score itself when White is to
move, its negation when Black is. -/
def score_relative (white_score : Score) (turn : Color) : Score :=
  if turn = WHITE then white_score else white_score.neg

/-- One `multipv` line of `engine.analyse`: the line's score (carried in
White perspective, see `score_relative`) and its principal variation as
UCI strings. -/
structure LineInfo where
  score_white : Score
  pv : List String
deriving Repr, DecidableEq

/-- One entry of the `top_moves` list built by `analyze_position`. -/
structure TopMove where
  move : String
  eval : ℚ
  pv : List String
deriving Repr, DecidableEq

/-- The dict returned by `analyze_position`. -/
structure EvalResult where
  evaluation : ℚ
  best_move : Option String
  mate_in : Option Int
  pv : List String
  top_moves : List TopMove
deriving Repr, DecidableEq

/-- The outcome of one engine interaction for one position:
`unavailable` (`st.session_state.engine is None`), `failure` (the
`analyse` call raised, landing in the `except` branch), or a successful
response with the position's side to move and the `multipv` info list. -/
inductive EngineOutcome where
  | unavailable
  | failure
  | success (turn : Color) (infos : List LineInfo)
deriving Repr, DecidableEq

/-- The neutral placeholder dict returned on engine unavailability and
on a failed call (`src/app.py:711-718` and `760-767`). -/
def neutralEval : EvalResult :=
  { evaluation := 0, best_move := none, mate_in := none, pv := [], top_moves := [] }

/-- The `evaluation` float computed from a (relative) score:
`score.score(mate_score=10000) / 100.0 if score.score() is not None
else 0` — `score.score()` (no mate_score) is `None` exactly on mate
scores, so a mate score yields `0` and a centipawn score yields
`value / 100`. -/
def evaluationOf (s : Score) : ℚ :=
  match s with
  | .cp v => (v : ℚ) / 100
  | .mate _ => 0

/-- `analyze_position` (`src/app.py:709-767`).  `engine.analyse` with
`multipv=3` returns a list of info dicts, so the `isinstance(info,
list)` branch is the live one; `info[0]` on an empty response raises
`IndexError`, which the surrounding `except` turns into the neutral
placeholder. -/
def analyze_position (outcome : EngineOutcome) : EvalResult :=
  match outcome with
  | .unavailable => neutralEval
  | .failure => neutralEval
  | .success turn infos =>
    match infos with
    | [] => neutralEval
    | main :: _ =>
      let score := score_relative main.score_white turn
      let evaluation := evaluationOf score
      let best_move := main.pv[0]?
      let mate_in := match score with | .mate n => some n | .cp _ => none
      let pv := main.pv.take 5
      let top_moves := (infos.take 3).filterMap (fun line =>
        (line.pv[0]?).map (fun mv =>
          { move := mv, eval := evaluationOf (score_relative line.score_white turn),
            pv := line.pv.take 3 }))
      { evaluation := evaluation, best_move := best_move, mate_in := mate_in,
        pv := pv, top_moves := top_moves }

/-- The centipawn loss the pipeline reports for a single ply, as a
function of the mover's color and the engine's objective
White-perspective centipawn evaluations of the position before the move
(mover to move) and after it (opponent to move): the orchestrator calls
`analyze_position` on both positions and hands the two `evaluation`
floats to `classify_move` (`src/app.py:1107-1139`). -/
def pipeline_cp_loss (mover : Color) (white_cp_before white_cp_after : Int)
    (is_best : Bool) : Int :=
  (classify_move
    (analyze_position (.success mover [{ score_white := .cp white_cp_before, pv := [] }])).evaluation
    (analyze_position (.success (!mover) [{ score_white := .cp white_cp_after, pv := [] }])).evaluation
    is_best mover).cp_loss

/-! ### Opening Matcher (`detect_opening`, `src/app.py:796-892`)

`OPENING_DATABASE` (`src/app.py:383-559`) maps SAN move strings to
opening records.  Only the identifying fields (`name`, `eco`) are
modelled; the instructional fields (`key_ideas`, `common_mistakes`,
`typical_plans`) are presentation strings never read by any pipeline
logic and never distinguishing two entries. -/

/-- An opening record: the identifying fields of a `OPENING_DATABASE`
value or of one of the inline fallback dicts. -/
structure OpeningInfo where
  name : String
  eco : String
deriving Repr, DecidableEq

/-- The nine entries of `OPENING_DATABASE`, in insertion order. -/
def OPENING_DATABASE : List (String × OpeningInfo) :=
  [("e4 e5 Nf3 Nc6 Bb5", { name := "Ruy Lopez (Spanish Opening)", eco := "C60-C99" }),
   ("e4 c5", { name := "Sicilian Defense", eco := "B20-B99" }),
   ("e4 e5 Nf3 Nc6 Bc4", { name := "Italian Game", eco := "C50-C54" }),
   ("d4 d5 c4", { name := "Queen\x27s Gambit", eco := "D00-D69" }),
   ("d4 Nf6 c4 e6", { name := "Nimzo-Indian Defense", eco := "E20-E59" }),
   ("e4 e6", { name := "French Defense", eco := "C00-C19" }),
   ("e4 c6", { name := "Caro-Kann Defense", eco := "B10-B19" }),
   ("Nf3 d5 c4", { name := "Reti Opening", eco := "A04-A09" }),
   ("c4", { name := "English Opening", eco := "A10-A39" })]

/-- `listIsInfixOf pat hay`: `pat` occurs as a contiguous sublist of
`hay`. -/
def listIsInfixOf : List Char → List Char → Bool
  | pat, [] => pat.isEmpty
  | pat, h :: t => pat.isPrefixOf (h :: t) || listIsInfixOf pat t

/-- Python's `pattern in move_string` on strings: contiguous substring
test. -/
def strContains (hay pat : String) : Bool :=
  listIsInfixOf pat.data hay.data

/-- `OPENING_DATABASE.get(key, default)`: the table entry when the key
is present, the inline default dict otherwise. -/
def dbGet (key : String) (default : OpeningInfo) : OpeningInfo :=
  match OPENING_DATABASE.find? (fun p => p.1 == key) with
  | some p => p.2
  | none => default

/-- The string the matcher scans: the first 12 SAN moves joined by
spaces (`src/app.py:798`). -/
def move_string_of (moves_list : List String) : String :=
  String.intercalate " " (moves_list.take 12)

/-- The selection loop of `detect_opening` (`src/app.py:800-807`): scan
the table in order; an entry whose key occurs as a substring of
`move_string` and is strictly longer than every match seen so far
becomes the new best match. -/
def bestMatchAux (move_string : String) :
    List (String × OpeningInfo) → Nat → Option OpeningInfo → Option OpeningInfo
  | [], _, best => best
  | (pattern, info) :: rest, max_match_length, best =>
    if strContains move_string pattern = true ∧ max_match_length < pattern.length then
      bestMatchAux move_string rest pattern.length (some info)
    else
      bestMatchAux move_string rest max_match_length best

/-- The sentinel record returned when neither the table nor the
fallback chain recognizes the game (`src/app.py:886-892`). -/
def unknownOpening : OpeningInfo :=
  { name := "Unknown Opening", eco := "A00" }

/-- The hard-coded fallback chain of `detect_opening`
(`src/app.py:812-884`), reached when no table key occurs as a
substring.  Every `OPENING_DATABASE.get(key, default)` call in it uses
a key present in the table, so the inline default dicts are dead and
the table entry is returned; the Python paths that fall through without
returning reach the final sentinel return. -/
def detect_opening_fallback (moves_list : List String) : OpeningInfo :=
  if moves_list.isEmpty = true then unknownOpening
  else
    let first_move := moves_list.headD ""
    if first_move = "e4" then
      if moves_list.length > 1 then
        if moves_list[1]? = some "e5" then
          if moves_list.length > 4 ∧ ((moves_list.drop 2).take 4).contains "Bb5" = true then
            dbGet "e4 e5 Nf3 Nc6 Bb5" { name := "Ruy Lopez", eco := "C60" }
          else if moves_list.length > 4 ∧ ((moves_list.drop 2).take 4).contains "Bc4" = true then
            dbGet "e4 e5 Nf3 Nc6 Bc4" { name := "Italian Game", eco := "C50" }
          else { name := "Open Game", eco := "C20" }
        else if moves_list[1]? = some "c5" then
          dbGet "e4 c5" { name := "Sicilian Defense", eco := "B20" }
        else if moves_list[1]? = some "e6" then
          dbGet "e4 e6" { name := "French Defense", eco := "C00" }
        else if moves_list[1]? = some "c6" then
          dbGet "e4 c6" { name := "Caro-Kann Defense", eco := "B10" }
        else unknownOpening
      else unknownOpening
    else if first_move = "d4" then
      if moves_list.length > 2 ∧ moves_list[1]? = some "d5" ∧ moves_list[2]? = some "c4" then
        dbGet "d4 d5 c4" { name := "Queen\x27s Gambit", eco := "D00" }
      else if moves_list.length > 3 ∧ moves_list[1]? = some "Nf6" ∧
          moves_list[2]? = some "c4" ∧ moves_list[3]? = some "e6" then
        dbGet "d4 Nf6 c4 e6" { name := "Nimzo-Indian Defense", eco := "E20" }
      else { name := "Queen\x27s Pawn Opening", eco := "D00" }
    else if first_move = "Nf3" ∨ first_move = "c4" then
      dbGet (if first_move = "c4" then first_move else "Nf3 d5 c4")
        { name := "Reti/English Opening", eco := "A04" }
    else unknownOpening

/-- `detect_opening` (`src/app.py:796-892`): longest-substring scan of
the table against the joined first-12-ply string, then the fallback
chain.  `board_positions` is accepted and never read, as in the
source. -/
def detect_opening (moves_list : List String) (board_positions : List String) : OpeningInfo :=
  let move_string := move_string_of moves_list
  match bestMatchAux move_string OPENING_DATABASE 0 none with
  | some best_match => best_match
  | none => detect_opening_fallback moves_list

/-! ### Tactical Motif Detector (`detect_tactical_motif`, `src/app.py:894-960`)

A board is modelled by its piece placement (an association list
square ↦ piece, squares 0-63 with a1 = 0, as in python-chess), the side
to move, and the en-passant square.  The placement-only predicates the
detector uses (`piece_at`, `is_capture`, `is_en_passant`) are embedded
concretely from python-chess's definitions; the deeper board-geometry
oracles (`attacks`, `attackers`, `is_check`, `is_checkmate`) and the
helper detectors of `src/app.py:962-1010` (`is_discovered_attack`,
`is_creating_skewer`, `is_back_rank_threat`), all delegated by the
source to the python-chess library, are supplied as an explicit oracle
parameter: the capture motif under study is independent of their
values, and the theorems quantify over every oracle. -/

/-- A chess piece: color and python-chess piece_type (PAWN=1, KNIGHT=2,
BISHOP=3, ROOK=4, QUEEN=5, KING=6). -/
structure Piece where
  color : Color
  piece_type : Nat
deriving Repr, DecidableEq

/-- A board: placement, side to move, en-passant target square. -/
structure Board where
  piece_map : List (Nat × Piece)
  turn : Color
  ep_square : Option Nat
deriving Repr, DecidableEq

/-- `board.piece_at(sq)`. -/
def Board.piece_at (b : Board) (sq : Nat) : Option Piece :=
  (b.piece_map.find? (fun p => p.1 == sq)).map (fun p => p.2)

/-- A move as the detector consumes it: origin and destination. -/
structure Move where
  from_square : Nat
  to_square : Nat
deriving Repr, DecidableEq

/-- `|a - b|` on squares. -/
def absDiff (a b : Nat) : Nat := max a b - min a b

/-- Is there a pawn (of either color) on `sq` — python-chess
`self.pawns & BB_SQUARES[sq]`. -/
def Board.has_pawn_at (b : Board) (sq : Nat) : Bool :=
  match b.piece_at sq with
  | some p => p.piece_type == 1
  | none => false

/-- Is there a piece of color `c` on `sq` — python-chess
`self.occupied_co[c] & BB_SQUARES[sq]`. -/
def Board.has_color_at (b : Board) (c : Color) (sq : Nat) : Bool :=
  match b.piece_at sq with
  | some p => p.color == c
  | none => false

/-- python-chess `Board.is_en_passant(move)`: the en-passant square is
the destination, a pawn stands on the origin, the move is diagonal by
one rank, and the destination is empty. -/
def Board.is_en_passant (b : Board) (m : Move) : Bool :=
  (b.ep_square == some m.to_square) &&
  b.has_pawn_at m.from_square &&
  (absDiff m.to_square m.from_square == 7 || absDiff m.to_square m.from_square == 9) &&
  (b.piece_at m.to_square).isNone

/-- python-chess `Board.is_capture(move)`:
`touched = BB_SQUARES[move.from_square] ^ BB_SQUARES[move.to_square]`,
then `bool(touched & self.occupied_co[not self.turn]) or
self.is_en_passant(move)`.  The xor empties `touched` when origin and
destination coincide; otherwise both squares are tested for a piece of
the color NOT to move. -/
def Board.is_capture (b : Board) (m : Move) : Bool :=
  (if m.from_square == m.to_square then false
   else b.has_color_at (!b.turn) m.from_square || b.has_color_at (!b.turn) m.to_square) ||
  b.is_en_passant m

/-- The board-geometry values `detect_tactical_motif` obtains from
python-chess for one `(board, move, previous_board)` triple, supplied
as an oracle (see the section comment). -/
structure GeometryOracle where
  is_check : Bool
  is_checkmate : Bool
  attacks : Nat → List Nat
  attackers : Color → Nat → List Nat
  is_discovered_attack : Bool
  is_creating_skewer : Bool
  is_back_rank_threat : Bool

/-- The capture block (`src/app.py:902-910`): `capture` from
`board.is_capture(move)` — `board` being the POST-move board the
orchestrator passes — then `winning_capture`/`exchange` from the
pre-move occupant of the destination. -/
def captureMotifs (board previous_board : Board) (m : Move) (from_piece : Piece) :
    List String :=
  if board.is_capture m = true then
    "capture" ::
      (match previous_board.piece_at m.to_square with
       | some to_piece =>
         if from_piece.piece_type < to_piece.piece_type then ["winning_capture"]
         else if from_piece.piece_type = to_piece.piece_type then ["exchange"]
         else []
       | none => [])
  else []

/-- The fork block (`src/app.py:919-928`). -/
def forkMotifs (o : GeometryOracle) (board : Board) (m : Move) (from_piece : Piece) :
    List String :=
  let valuable_attacks := (o.attacks m.to_square).filter (fun sq =>
    match board.piece_at sq with
    | some p => (p.color != from_piece.color) &&
        (p.piece_type == 5 || p.piece_type == 4 || p.piece_type == 6)
    | none => false)
  if 2 ≤ valuable_attacks.length then
    "fork" ::
      (if valuable_attacks.any (fun sq =>
          match board.piece_at sq with
          | some p => p.piece_type == 6
          | none => false) then ["royal_fork"] else [])
  else []

/-- The pin scan (`src/app.py:930-944`): for every enemy-occupied
square attacked (per the oracle's `attackers`) by the moved piece's
color from the destination square, on a file within one of the
destination's file, append `pin` when any same-color piece anywhere
outranks the attacked piece (the inner loop `break`s after one
append). -/
def pinMotifs (o : GeometryOracle) (board : Board) (m : Move) (from_piece : Piece) :
    List String :=
  (List.range 64).flatMap (fun square =>
    match board.piece_at square with
    | some piece =>
      if (piece.color != from_piece.color) &&
          ((o.attackers from_piece.color square).contains m.to_square) &&
          decide (absDiff (square % 8) (m.to_square % 8) ≤ 1) &&
          ((List.range 64).any (fun behind_sq =>
            match board.piece_at behind_sq with
            | some behind_piece => (behind_piece.color == piece.color) &&
                (piece.piece_type < behind_piece.piece_type)
            | none => false)) then ["pin"] else []
    | none => [])

/-- The discovered-attack block (`src/app.py:946-950`). -/
def discoveredMotifs (o : GeometryOracle) : List String :=
  if o.is_discovered_attack then
    "discovered_attack" :: (if o.is_check then ["discovered_check"] else [])
  else []

/-- `detect_tactical_motif` (`src/app.py:894-960`): no motifs when the
origin square was empty; otherwise captures, check/checkmate (with the
early return on checkmate), forks, pins, discovered attacks, skewers
and back-rank threats, in source order. -/
def detect_tactical_motif (o : GeometryOracle) (board : Board) (m : Move)
    (previous_board : Board) : List String :=
  match previous_board.piece_at m.from_square with
  | none => []
  | some from_piece =>
    let motifs := captureMotifs board previous_board m from_piece
    if o.is_check && o.is_checkmate then motifs ++ ["check", "checkmate"]
    else
      motifs ++ (if o.is_check then ["check"] else [])
        ++ forkMotifs o board m from_piece
        ++ pinMotifs o board m from_piece
        ++ discoveredMotifs o
        ++ (if o.is_creating_skewer then ["skewer"] else [])
        ++ (if o.is_back_rank_threat then ["back_rank"] else [])

/-- The standard chess starting position. -/
def startBoard : Board :=
  { piece_map :=
      [(0, ⟨WHITE, 4⟩), (1, ⟨WHITE, 2⟩), (2, ⟨WHITE, 3⟩), (3, ⟨WHITE, 5⟩),
       (4, ⟨WHITE, 6⟩), (5, ⟨WHITE, 3⟩), (6, ⟨WHITE, 2⟩), (7, ⟨WHITE, 4⟩),
       (8, ⟨WHITE, 1⟩), (9, ⟨WHITE, 1⟩), (10, ⟨WHITE, 1⟩), (11, ⟨WHITE, 1⟩),
       (12, ⟨WHITE, 1⟩), (13, ⟨WHITE, 1⟩), (14, ⟨WHITE, 1⟩), (15, ⟨WHITE, 1⟩),
       (48, ⟨BLACK, 1⟩), (49, ⟨BLACK, 1⟩), (50, ⟨BLACK, 1⟩), (51, ⟨BLACK, 1⟩),
       (52, ⟨BLACK, 1⟩), (53, ⟨BLACK, 1⟩), (54, ⟨BLACK, 1⟩), (55, ⟨BLACK, 1⟩),
       (56, ⟨BLACK, 4⟩), (57, ⟨BLACK, 2⟩), (58, ⟨BLACK, 3⟩), (59, ⟨BLACK, 5⟩),
       (60, ⟨BLACK, 6⟩), (61, ⟨BLACK, 3⟩), (62, ⟨BLACK, 2⟩), (63, ⟨BLACK, 4⟩)],
    turn := WHITE, ep_square := none }

/-- The position after `1. e4` (the e-pawn moved from square 12 to
square 28; Black to move; en-passant square e3 = 20). -/
def boardAfterE4 : Board :=
  { piece_map :=
      [(0, ⟨WHITE, 4⟩), (1, ⟨WHITE, 2⟩), (2, ⟨WHITE, 3⟩), (3, ⟨WHITE, 5⟩),
       (4, ⟨WHITE, 6⟩), (5, ⟨WHITE, 3⟩), (6, ⟨WHITE, 2⟩), (7, ⟨WHITE, 4⟩),
       (8, ⟨WHITE, 1⟩), (9, ⟨WHITE, 1⟩), (10, ⟨WHITE, 1⟩), (11, ⟨WHITE, 1⟩),
       (28, ⟨WHITE, 1⟩), (13, ⟨WHITE, 1⟩), (14, ⟨WHITE, 1⟩), (15, ⟨WHITE, 1⟩),
       (48, ⟨BLACK, 1⟩), (49, ⟨BLACK, 1⟩), (50, ⟨BLACK, 1⟩), (51, ⟨BLACK, 1⟩),
       (52, ⟨BLACK, 1⟩), (53, ⟨BLACK, 1⟩), (54, ⟨BLACK, 1⟩), (55, ⟨BLACK, 1⟩),
       (56, ⟨BLACK, 4⟩), (57, ⟨BLACK, 2⟩), (58, ⟨BLACK, 3⟩), (59, ⟨BLACK, 5⟩),
       (60, ⟨BLACK, 6⟩), (61, ⟨BLACK, 3⟩), (62, ⟨BLACK, 2⟩), (63, ⟨BLACK, 4⟩)],
    turn := BLACK, ep_square := some 20 }

/-- `1. e4` as a from/to pair (e2 = 12, e4 = 28). -/
def moveE2E4 : Move := { from_square := 12, to_square := 28 }

/-! ### Game Analyzer (`analyze_game_with_teaching`, `src/app.py:1080-1179`)

The PGN parse (`chess.pgn.read_game`) and the board replay
(`board.push`, `board.san`, `board.fen`, `board.turn`) belong to
python-chess; the orchestrator is modelled as a map over the per-ply
data that replay and engine produce: for each ply its UCI and SAN
renderings, the side to move, the engine outcomes for the positions
before and after the move, the detector's motif list, and the two FENs.
`read_game` returns `None` on empty/exhausted input (modelled by the
`none` parse) and a game with no mainline moves on junk movetext
(modelled by `some []`). -/

/-- The per-ply data the replay and the engine hand the orchestrator. -/
structure PlyInput where
  uci : String
  san : String
  turn : Color
  engineBefore : EngineOutcome
  engineAfter : EngineOutcome
  motifs : List String
  fen_before : String
  fen : String
deriving Repr, DecidableEq

/-- One entry of the `analysis` list (`src/app.py:1148-1163`). -/
structure MoveRecord where
  move_number : Nat
  move : String
  san : String
  player : String
  eval_before : ℚ
  eval_after : ℚ
  mate_before : Option Int
  mate_after : Option Int
  best_move : Option String
  top_moves : List TopMove
  classification : Classification
  motifs : List String
  teaching_moment : Option String
  fen : String
deriving Repr, DecidableEq

/-- One entry of the `tactical_motifs` list (`src/app.py:1124-1130`). -/
structure TacticalEntry where
  move_number : Nat
  move : String
  motifs : List String
  player : String
  fen : String
deriving Repr, DecidableEq

/-- The `acpl_data` dict (`src/app.py:1174-1177`). -/
structure AcplData where
  white_acpl : ℚ
  black_acpl : ℚ
deriving Repr, DecidableEq

/-- Python division: raises on a zero divisor, modelled as `none`. -/
def pydiv (a b : ℚ) : Option ℚ :=
  if b = 0 then none else some (a / b)

/-- The body of the per-ply loop (`src/app.py:1099-1165`) for the ply
at zero-based index `idx` (`move_number = idx + 1`): evaluate before
and after, compare against the engine's best move, classify, and derive
a teaching moment for blunders/mistakes (when a best move exists) and
brilliancies. -/
def recordOfPly (idx : Nat) (p : PlyInput) : MoveRecord :=
  let eval_before := analyze_position p.engineBefore
  let eval_after := analyze_position p.engineAfter
  let best_move := eval_before.best_move
  let is_best := match best_move with
    | some bm => p.uci == bm
    | none => false
  let classification := classify_move eval_before.evaluation eval_after.evaluation is_best
    p.turn (some eval_before.evaluation)
  let teaching_moment :=
    if (classification.type = "blunder" ∨ classification.type = "mistake") ∧ best_move ≠ none then
      some ("Better: " ++ best_move.getD "" ++ ". " ++ classification.teaching)
    else if classification.type = "brilliant" then some classification.teaching
    else none
  { move_number := idx + 1, move := p.uci, san := p.san,
    player := if p.turn = WHITE then "White" else "Black",
    eval_before := eval_before.evaluation, eval_after := eval_after.evaluation,
    mate_before := eval_before.mate_in, mate_after := eval_after.mate_in,
    best_move := best_move, top_moves := eval_before.top_moves,
    classification := classification, motifs := p.motifs,
    teaching_moment := teaching_moment, fen := p.fen }

/-- The `analysis` list: one record per ply, in order. -/
def analysisOf (plies : List PlyInput) : List MoveRecord :=
  plies.enum.map (fun p => recordOfPly p.1 p.2)

/-- The `tactical_motifs` list: one entry per ply whose motif list is
non-empty (`src/app.py:1123-1130`). -/
def tacticalMotifsOf (plies : List PlyInput) : List TacticalEntry :=
  plies.enum.filterMap (fun p =>
    if p.2.motifs ≠ [] then
      some { move_number := p.1 + 1, move := p.2.san, motifs := p.2.motifs,
             player := if p.2.turn = WHITE then "White" else "Black", fen := p.2.fen }
    else none)

/-- White's average centipawn loss (`src/app.py:1171`): the sum of
White's positive losses over `max(#White moves, 1)`. -/
def white_acpl_of (analysis : List MoveRecord) : Option ℚ :=
  pydiv
    (((analysis.filter (fun m => m.player == "White" &&
        decide (0 < m.classification.cp_loss))).map
      (fun m => (m.classification.cp_loss : ℚ))).sum)
    ((max (analysis.filter (fun m => m.player == "White")).length 1 : Nat) : ℚ)

/-- Black's average centipawn loss (`src/app.py:1172`). -/
def black_acpl_of (analysis : List MoveRecord) : Option ℚ :=
  pydiv
    (((analysis.filter (fun m => m.player == "Black" &&
        decide (0 < m.classification.cp_loss))).map
      (fun m => (m.classification.cp_loss : ℚ))).sum)
    ((max (analysis.filter (fun m => m.player == "Black")).length 1 : Nat) : ℚ)

/-- The quadruple `analyze_game_with_teaching` returns on success; the
Python `return None, None, None, None` on a failed parse is the `none`
of the surrounding `Option`. -/
structure GameAnalysis where
  analysis : List MoveRecord
  opening_info : OpeningInfo
  tactical_motifs : List TacticalEntry
  acpl_data : Option AcplData
deriving Repr, DecidableEq

/-- `analyze_game_with_teaching` (`src/app.py:1080-1179`). -/
def analyze_game_with_teaching (parse : Option (List PlyInput)) : Option GameAnalysis :=
  match parse with
  | none => none
  | some plies =>
    let analysis := analysisOf plies
    let move_list := plies.map (fun p => p.san)
    let board_positions := plies.map (fun p => p.fen_before)
    let opening_info := detect_opening move_list board_positions
    let tactical_motifs := tacticalMotifsOf plies
    let acpl_data := (white_acpl_of analysis).bind (fun w =>
      (black_acpl_of analysis).map (fun b => { white_acpl := w, black_acpl := b }))
    some { analysis := analysis, opening_info := opening_info,
           tactical_motifs := tactical_motifs, acpl_data := acpl_data }

/-! ### Aggregator (`generate_comprehensive_report`, `src/app.py:1181-1311`)

The report's `weaknesses` / `strengths` / `teaching_points` /
`tactical_lessons` entries are modelled by their decision-relevant
fields (`area`, `severity`, the motif and its count); their
`description`/`details` texts are f-string renderings of those same
values — pure presentation, never read back by any logic. -/

/-- A `weaknesses` entry (area and severity tags). -/
structure Weakness where
  area : String
  severity : String
deriving Repr, DecidableEq

/-- A `strengths` entry (area tag). -/
structure Strength where
  area : String
deriving Repr, DecidableEq

/-- A `teaching_points` entry. -/
structure TeachingPoint where
  phase : String
  title : String
deriving Repr, DecidableEq

/-- A `tactical_lessons` entry: the motif and its occurrence count. -/
structure TacticalLesson where
  pattern : String
  count : Nat
deriving Repr, DecidableEq

/-- The `move_stats` histogram (`src/app.py:1196-1203`). -/
structure MoveStats where
  brilliant : Nat
  best : Nat
  good : Nat
  inaccuracy : Nat
  mistake : Nat
  blunder : Nat
deriving Repr, DecidableEq

/-- The `performance_metrics` dict (`src/app.py:1299-1309`). -/
structure Metrics where
  accuracy : ℚ
  white_accuracy : ℚ
  black_accuracy : ℚ
  tactical_sharpness : ℚ
  consistency : ℚ
  opening_score : ℚ
  middlegame_score : ℚ
  endgame_score : ℚ
  move_stats : MoveStats
deriving Repr, DecidableEq

/-- The report quintuple; `performance_metrics = none` models the empty
dict `{}` of the empty-analysis early return. -/
structure Report where
  performance_metrics : Option Metrics
  weaknesses : List Weakness
  strengths : List Strength
  teaching_points : List TeachingPoint
  tactical_lessons : List TacticalLesson
deriving Repr, DecidableEq

/-- The quintuple returned for an empty analysis
(`src/app.py:1183-1184`). -/
def emptyReport : Report :=
  { performance_metrics := none, weaknesses := [], strengths := [],
    teaching_points := [], tactical_lessons := [] }

/-- The keys of `TACTICAL_PATTERNS` (`src/app.py:562-663`), in
insertion order. -/
def TACTICAL_PATTERNS_keys : List String :=
  ["fork", "pin", "skewer", "discovered_attack", "double_attack",
   "removing_defender", "back_rank", "deflection", "interference", "zwischenzug"]

/-- Membership test for `['best', 'good', 'brilliant']`, the category
set counted as accurate throughout the report. -/
def isAccurateType (t : String) : Bool :=
  t == "best" || t == "good" || t == "brilliant"

/-- `opening_moves` (`src/app.py:1208`): move_number ≤ 10. -/
def opening_moves_of (analysis : List MoveRecord) : List MoveRecord :=
  analysis.filter (fun m => decide (m.move_number ≤ 10))

/-- `middlegame_moves` (`src/app.py:1209`): 10 < move_number ≤ 30. -/
def middlegame_moves_of (analysis : List MoveRecord) : List MoveRecord :=
  analysis.filter (fun m => decide (10 < m.move_number) && decide (m.move_number ≤ 30))

/-- `endgame_moves` (`src/app.py:1210`): move_number > 30. -/
def endgame_moves_of (analysis : List MoveRecord) : List MoveRecord :=
  analysis.filter (fun m => decide (30 < m.move_number))

/-- First occurrences of each motif, in order — the iteration order of
the Python dict `motif_counts` (insertion-ordered). -/
def firstOccurrences (l : List String) : List String :=
  l.foldl (fun acc m => if m ∈ acc then acc else acc ++ [m]) []

/-- `hits / total * 100`, `none` on a zero denominator. -/
def accuracy_pct (hits total : Nat) : Option ℚ :=
  (pydiv (hits : ℚ) (total : ℚ)).map (fun x => x * 100)

/-- Sequencing of the report's nine possibly-division-failing values:
Python evaluates them in order and raises on the first zero divisor;
here each is an `Option` and the report is `none` if any is. -/
def seq9 {α1 α2 α3 α4 α5 α6 α7 α8 α9 β : Type}
    (a1 : Option α1) (a2 : Option α2) (a3 : Option α3) (a4 : Option α4)
    (a5 : Option α5) (a6 : Option α6) (a7 : Option α7) (a8 : Option α8)
    (a9 : Option α9) (k : α1 → α2 → α3 → α4 → α5 → α6 → α7 → α8 → α9 → β) :
    Option β :=
  a1.bind fun v1 => a2.bind fun v2 => a3.bind fun v3 => a4.bind fun v4 =>
  a5.bind fun v5 => a6.bind fun v6 => a7.bind fun v7 => a8.bind fun v8 =>
  a9.map fun v9 => k v1 v2 v3 v4 v5 v6 v7 v8 v9

/-- `generate_comprehensive_report` (`src/app.py:1181-1311`): the early
return on an empty analysis, the move statistics, the phase buckets,
the weakness/strength/teaching/lesson accumulation in source order, and
the performance metrics. -/
def generate_comprehensive_report (analysis : List MoveRecord) (opening_info : OpeningInfo)
    (tactical_motifs : List TacticalEntry) : Option Report :=
  if analysis = [] then some emptyReport
  else
    let total_moves := analysis.length
    let white_moves := analysis.filter (fun m => m.player == "White")
    let black_moves := analysis.filter (fun m => m.player == "Black")
    let move_stats : MoveStats :=
      { brilliant := (analysis.filter (fun m => m.classification.type == "brilliant")).length,
        best := (analysis.filter (fun m => m.classification.type == "best")).length,
        good := (analysis.filter (fun m => m.classification.type == "good")).length,
        inaccuracy := (analysis.filter (fun m => m.classification.type == "inaccuracy")).length,
        mistake := (analysis.filter (fun m => m.classification.type == "mistake")).length,
        blunder := (analysis.filter (fun m => m.classification.type == "blunder")).length }
    let accuracy? :=
      if 0 < total_moves then
        accuracy_pct (move_stats.brilliant + move_stats.best + move_stats.good) total_moves
      else some 0
    let opening_moves := opening_moves_of analysis
    let middlegame_moves := middlegame_moves_of analysis
    let endgame_moves := endgame_moves_of analysis
    let opening_errors := opening_moves.filter (fun m =>
      m.classification.type == "mistake" || m.classification.type == "blunder")
    let weaknesses0 : List Weakness :=
      if 2 ≤ opening_errors.length then
        [{ area := "📚 Opening Knowledge", severity := "High" }]
      else []
    let strengths0 : List Strength :=
      if opening_errors.length = 0 ∧ 8 ≤ opening_moves.length then
        [{ area := "📚 Opening Mastery" }]
      else []
    let weaknesses1 := weaknesses0 ++
      (if 2 ≤ move_stats.blunder then
        [{ area := "⚔️ Tactical Awareness", severity := "Critical" }]
      else [])
    let teaching_points : List TeachingPoint :=
      if 2 ≤ move_stats.blunder then
        [{ phase := "Tactics", title := "Improve Tactical Vision" }]
      else []
    let strengths1 := strengths0 ++
      (if 5 ≤ tactical_motifs.length then [{ area := "⚔️ Tactical Execution" }] else [])
    let endgame_part? : Option (List Weakness × List Strength) :=
      if endgame_moves ≠ [] then
        (accuracy_pct (endgame_moves.filter (fun m => isAccurateType m.classification.type)).length
            endgame_moves.length).map (fun endgame_accuracy =>
          if endgame_accuracy < 70 then
            ([{ area := "♔ Endgame Technique", severity := "Medium" }], [])
          else if 85 ≤ endgame_accuracy then
            ([], [{ area := "♔ Endgame Excellence" }])
          else ([], []))
      else some ([], [])
    let all_motifs := analysis.flatMap (fun m => m.motifs)
    let tactical_lessons := (firstOccurrences all_motifs).filterMap (fun motif =>
      if motif ∈ TACTICAL_PATTERNS_keys ∧ 2 ≤ all_motifs.count motif then
        some ({ pattern := motif, count := all_motifs.count motif } : TacticalLesson)
      else none)
    let brilliant_moves := analysis.filter (fun m => m.classification.type == "brilliant")
    let white_accuracy? :=
      accuracy_pct (white_moves.filter (fun m => isAccurateType m.classification.type)).length
        (max white_moves.length 1)
    let black_accuracy? :=
      accuracy_pct (black_moves.filter (fun m => isAccurateType m.classification.type)).length
        (max black_moves.length 1)
    let tactical_sharpness? :=
      accuracy_pct (move_stats.brilliant + tactical_motifs.length) total_moves
    let consistency? :=
      (pydiv (move_stats.blunder : ℚ) ((max total_moves 1 : Nat) : ℚ)).map
        (fun x => (1 - x) * 100)
    let opening_score? :=
      if opening_moves ≠ [] then
        accuracy_pct (opening_moves.filter (fun m => isAccurateType m.classification.type)).length
          (max opening_moves.length 1)
      else some 0
    let middlegame_score? :=
      if middlegame_moves ≠ [] then
        accuracy_pct
          (middlegame_moves.filter (fun m => isAccurateType m.classification.type)).length
          (max middlegame_moves.length 1)
      else some 0
    let endgame_score? :=
      if endgame_moves ≠ [] then
        accuracy_pct (endgame_moves.filter (fun m => isAccurateType m.classification.type)).length
          (max endgame_moves.length 1)
      else some 0
    seq9 accuracy? endgame_part? white_accuracy? black_accuracy? tactical_sharpness?
      consistency? opening_score? middlegame_score? endgame_score?
      (fun accuracy endgame_part white_accuracy black_accuracy tactical_sharpness
          consistency opening_score middlegame_score endgame_score =>
        { performance_metrics := some
            { accuracy := accuracy, white_accuracy := white_accuracy,
              black_accuracy := black_accuracy, tactical_sharpness := tactical_sharpness,
              consistency := consistency, opening_score := opening_score,
              middlegame_score := middlegame_score, endgame_score := endgame_score,
              move_stats := move_stats },
          weaknesses := weaknesses1 ++ endgame_part.1,
          strengths := (strengths1 ++ endgame_part.2) ++
            (brilliant_moves.take 3).map (fun _ => { area := "✨ Brilliant Play" }),
          teaching_points := teaching_points,
          tactical_lessons := tactical_lessons })

/-- A sample record at move number 12, used to exhibit the phase
boundaries. -/
def sampleRecord12 : MoveRecord :=
  { move_number := 12, move := "e2e4", san := "e4", player := "White",
    eval_before := 0, eval_after := 0, mate_before := none, mate_after := none,
    best_move := none, top_moves := [], classification := classifyCore 0 false,
    motifs := [], teaching_moment := none, fen := "" }

/-! ### Helper lemmas about `pyInt` -/

theorem pyInt_ge_of_ge {q : ℚ} {n : Int} (hn : 0 ≤ n) (h : (n : ℚ) ≤ q) : n ≤ pyInt q := by
  have h0 : (0 : ℚ) ≤ q := le_trans (by exact_mod_cast hn) h
  simp only [pyInt, if_pos h0]
  exact Int.le_floor.mpr h

theorem pyInt_le_of_le {q : ℚ} {n : Int} (hn : n < 0) (h : q ≤ (n : ℚ)) :
    pyInt q ≤ n := by
  have h0 : ¬ (0 : ℚ) ≤ q := by
    have : (n : ℚ) < 0 := by exact_mod_cast hn
    intro hc
    linarith
  simp only [pyInt, if_neg h0]
  exact Int.ceil_le.mpr h

theorem pyInt_intCast (n : Int) : pyInt ((n : ℚ)) = n := by
  by_cases h : (0 : ℚ) ≤ (n : ℚ)
  · simp [pyInt, h]
  · simp [pyInt, h]

/-- `classify_move` is the decision chain applied to the normalized
loss; definitional, since the source computes the same expression. -/
theorem classify_move_eq_core (eb ea : ℚ) (ib : Bool) (c : Color) :
    classify_move eb ea ib c = classifyCore (centipawn_loss_of eb ea c) ib := rfl

/-- In every branch, the reported `cp_loss` is `pyInt` of the normalized
loss. -/
theorem classify_move_cp_loss (eb ea : ℚ) (ib : Bool) (c : Color) :
    (classify_move eb ea ib c).cp_loss = pyInt (centipawn_loss_of eb ea c) := by
  rw [classify_move_eq_core]
  simp only [classifyCore]
  split_ifs <;> rfl

/-- C1: the original claim ("`cp_loss` is non-negative after
color-normalization") fails on the code: at `eval_before = 0`,
`eval_after = 1`, not the engine best move, White to move, the normalized
loss is `(0 - 1) * 100 = -100`, the move is classified `brilliant`, and
the reported `cp_loss` is the negative value `-100`. -/
theorem C1_counterexample :
    (classify_move 0 1 false WHITE).type = "brilliant" ∧
    (classify_move 0 1 false WHITE).cp_loss = -100 ∧ ((-100 : Int) < 0) := by
  rw [classify_move_eq_core]
  have hL : centipawn_loss_of 0 1 WHITE = -100 := by
    norm_num [centipawn_loss_of, WHITE, BLACK]
  rw [hL]
  norm_num [classifyCore]
  simpa using pyInt_intCast (-100)

/-- C1 (amended): the reported `cp_loss` is exactly the truncated
normalized loss `(eval_before - eval_after) * 100` — it is not clamped,
and it is negative (at most `-50`) whenever the move is classified
`brilliant`; it is at least `10` whenever the category is `good`,
`inaccuracy`, `mistake` or `blunder`.  `classify_move` has no book-move
input, so there is no book/theory category forcing a zero loss. -/
theorem C1_amended_cp_loss_signed :
    ∀ (eb ea : ℚ) (ib : Bool) (c : Color),
      (classify_move eb ea ib c).cp_loss = pyInt (centipawn_loss_of eb ea c) ∧
      ((classify_move eb ea ib c).type = "brilliant" →
        (classify_move eb ea ib c).cp_loss ≤ -50) ∧
      ((classify_move eb ea ib c).type ∈ ["good", "inaccuracy", "mistake", "blunder"] →
        10 ≤ (classify_move eb ea ib c).cp_loss) := by
  intro eb ea ib c
  refine ⟨classify_move_cp_loss eb ea ib c, ?_, ?_⟩ <;> rw [classify_move_eq_core]
  · simp only [classifyCore]
    split_ifs with h1 h2 h3 h4 h5 <;> intro hmem
    · exact pyInt_le_of_le (by norm_num) (by exact_mod_cast le_of_lt h1.1)
    · simp at hmem
    · simp at hmem
    · simp at hmem
    · simp at hmem
    · simp at hmem
  · simp only [classifyCore]
    split_ifs with h1 h2 h3 h4 h5 <;> intro hmem
    · simp at hmem
    · simp at hmem
    · exact pyInt_ge_of_ge (by norm_num) (by exact_mod_cast le_of_not_lt (not_or.mp h2).2)
    · exact pyInt_ge_of_ge (by norm_num) (by exact_mod_cast le_of_not_lt (not_or.mp h2).2)
    · exact pyInt_ge_of_ge (by norm_num) (by exact_mod_cast le_of_not_lt (not_or.mp h2).2)
    · exact pyInt_ge_of_ge (by norm_num) (by exact_mod_cast le_of_not_lt (not_or.mp h2).2)

/-- C1 (amended) — witness: the implications of the amended theorem
discharged at concrete inputs (a brilliant move with loss `-100`, a
blunder with loss `400`). -/
theorem C1_amended_witness :
    (classify_move 0 1 false WHITE).cp_loss ≤ -50 ∧
    10 ≤ (classify_move 4 0 false WHITE).cp_loss :=
  ⟨(C1_amended_cp_loss_signed 0 1 false WHITE).2.1 (by
      rw [classify_move_eq_core]
      have hL : centipawn_loss_of 0 1 WHITE = -100 := by
        norm_num [centipawn_loss_of, WHITE, BLACK]
      rw [hL]
      norm_num [classifyCore]),
   (C1_amended_cp_loss_signed 4 0 false WHITE).2.2 (by
      rw [classify_move_eq_core]
      have hL : centipawn_loss_of 4 0 WHITE = 400 := by
        norm_num [centipawn_loss_of, WHITE, BLACK]
      rw [hL]
      norm_num [classifyCore])⟩

/-- C3: the original claim fails on the code: `classify_move` takes no
`is_book_move` input and implements six grades, not the nine of the
spec's decision table.  At the concrete input `eval_before = 1/5`,
`eval_after = 0` (a 20-centipawn loss), not the engine's best move,
White to move, the spec table yields `excellent` (and, with the book
flag set, `theory`), while the code yields `good`. -/
theorem C3_counterexample :
    (classify_move (1/5) 0 false WHITE).type = "good" ∧
    classify_move_spec (1/5) 0 false false WHITE = "excellent" ∧
    classify_move_spec (1/5) 0 false true WHITE = "theory" ∧
    (((classify_move (1/5) 0 false WHITE).type ==
      classify_move_spec (1/5) 0 false false WHITE) = false) := by
  have hL : centipawn_loss_of (1/5) 0 WHITE = 20 := by
    norm_num [centipawn_loss_of, WHITE, BLACK]
  refine ⟨?_, ?_, ?_, ?_⟩
  · rw [classify_move_eq_core, hL]
    norm_num [classifyCore]
  · simp only [classify_move_spec, hL]
    norm_num
  · simp only [classify_move_spec, hL]
    norm_num
  · rw [classify_move_eq_core, hL]
    simp only [classify_move_spec, hL]
    norm_num [classifyCore]
    decide

/-- C3 (amended): for every input `(eval_before, eval_after,
is_best_move, player_color)` — there is no book-move input — the
classifier returns exactly one category, drawn from the six grades
`brilliant`, `best`, `good`, `inaccuracy`, `mistake`, `blunder`; each of
the six is attained. -/
theorem C3_amended_six_grades :
    (∀ (eb ea : ℚ) (ib : Bool) (c : Color),
      (classify_move eb ea ib c).type ∈
        ["brilliant", "best", "good", "inaccuracy", "mistake", "blunder"]) ∧
    (classify_move (-1) 0 false WHITE).type = "brilliant" ∧
    (classify_move 0 0 true WHITE).type = "best" ∧
    (classify_move (1/5) 0 false WHITE).type = "good" ∧
    (classify_move (3/5) 0 false WHITE).type = "inaccuracy" ∧
    (classify_move (3/2) 0 false WHITE).type = "mistake" ∧
    (classify_move 4 0 false WHITE).type = "blunder" := by
  refine ⟨?_, ?_, ?_, ?_, ?_, ?_, ?_⟩
  · intro eb ea ib c
    rw [classify_move_eq_core]
    simp only [classifyCore]
    split_ifs <;> simp
  all_goals rw [classify_move_eq_core]
  · have hL : centipawn_loss_of (-1) 0 WHITE = -100 := by
      norm_num [centipawn_loss_of, WHITE, BLACK]
    rw [hL]; norm_num [classifyCore]
  · have hL : centipawn_loss_of 0 0 WHITE = 0 := by
      norm_num [centipawn_loss_of, WHITE, BLACK]
    rw [hL]; norm_num [classifyCore]
  · have hL : centipawn_loss_of (1/5) 0 WHITE = 20 := by
      norm_num [centipawn_loss_of, WHITE, BLACK]
    rw [hL]; norm_num [classifyCore]
  · have hL : centipawn_loss_of (3/5) 0 WHITE = 60 := by
      norm_num [centipawn_loss_of, WHITE, BLACK]
    rw [hL]; norm_num [classifyCore]
  · have hL : centipawn_loss_of (3/2) 0 WHITE = 150 := by
      norm_num [centipawn_loss_of, WHITE, BLACK]
    rw [hL]; norm_num [classifyCore]
  · have hL : centipawn_loss_of 4 0 WHITE = 400 := by
      norm_num [centipawn_loss_of, WHITE, BLACK]
    rw [hL]; norm_num [classifyCore]

/-- C6: the original claim ("loss at or above ~200 centipawns is
classified Blunder") fails on the code: the code's blunder threshold is
300, so a 200-centipawn loss (`eval_before = 2`, `eval_after = 0`, not
best, White) is classified `mistake`, not `blunder`. -/
theorem C6_counterexample :
    (classify_move 2 0 false WHITE).cp_loss = 200 ∧
    (classify_move 2 0 false WHITE).type = "mistake" ∧
    (((classify_move 2 0 false WHITE).type == "blunder") = false) := by
  rw [classify_move_eq_core]
  have hL : centipawn_loss_of 2 0 WHITE = 200 := by
    norm_num [centipawn_loss_of, WHITE, BLACK]
  rw [hL]
  norm_num [classifyCore]
  constructor
  · simpa using pyInt_intCast 200
  · decide

/-- C6 (amended): for every non-book move (the classifier has no book
input) that is not the engine's top move, a normalized loss below 300
centipawns yields a category no worse than Mistake, and a loss at or
above 300 yields Blunder.  (A move flagged as the engine's best is
classified `best` regardless of its loss.) -/
theorem C6_amended_blunder_threshold :
    ∀ (eb ea : ℚ) (c : Color),
      (centipawn_loss_of eb ea c < 300 →
        (classify_move eb ea false c).type ∈
          ["brilliant", "best", "good", "inaccuracy", "mistake"]) ∧
      (300 ≤ centipawn_loss_of eb ea c →
        (classify_move eb ea false c).type = "blunder") := by
  intro eb ea c
  rw [classify_move_eq_core]
  constructor <;> intro h
  · simp only [classifyCore, Bool.false_eq_true, not_false_eq_true, and_true, false_or]
    split_ifs with h1 h2 h3 h4
    · simp
    · simp
    · simp
    · simp
    · simp
  · simp only [classifyCore, Bool.false_eq_true, not_false_eq_true, and_true, false_or]
    split_ifs with h1 h2 h3 h4 h5
    · exact absurd h (by push_neg; linarith)
    · exact absurd h (by push_neg; linarith)
    · exact absurd h (by push_neg; linarith)
    · exact absurd h (by push_neg; linarith)
    · exact absurd h (by push_neg; linarith)
    · rfl

/-- C6 (amended) — witness: the two implications discharged at concrete
inputs (a 150-centipawn loss is a `mistake`, a 400-centipawn loss is a
`blunder`). -/
theorem C6_amended_witness :
    (classify_move (3/2) 0 false WHITE).type ∈
      ["brilliant", "best", "good", "inaccuracy", "mistake"] ∧
    (classify_move 4 0 false WHITE).type = "blunder" :=
  ⟨(C6_amended_blunder_threshold (3/2) 0 WHITE).1 (by
      norm_num [centipawn_loss_of, WHITE, BLACK]),
   (C6_amended_blunder_threshold 4 0 WHITE).2 (by
      norm_num [centipawn_loss_of, WHITE, BLACK])⟩

/-! ### Opening Matcher lemmas -/

/-- If no remaining entry can beat the running maximum, the scan keeps
the current best. -/
theorem bestMatchAux_eq_best {s : String} :
    ∀ (entries : List (String × OpeningInfo)) (acc : Nat) (best : Option OpeningInfo),
      (∀ r ∈ entries, strContains s r.1 = true → r.1.length ≤ acc) →
      bestMatchAux s entries acc best = best := by
  intro entries
  induction entries with
  | nil => intro acc best _; rfl
  | cons p rest ih =>
    intro acc best h
    simp only [bestMatchAux]
    rw [if_neg, ih]
    · intro r hr hcr
      exact h r (List.mem_cons_of_mem p hr) hcr
    · rintro ⟨hc, hl⟩
      exact absurd (h p (List.mem_cons_self p rest) hc) (by omega)

/-- The scan returns an entry whose key is a substring match of maximal
length, provided some entry beats the running maximum. -/
theorem bestMatchAux_maximal {s : String} :
    ∀ (entries : List (String × OpeningInfo)) (acc : Nat) (best : Option OpeningInfo),
      (∃ p ∈ entries, strContains s p.1 = true ∧ acc < p.1.length) →
      ∃ q ∈ entries, bestMatchAux s entries acc best = some q.2 ∧
        strContains s q.1 = true ∧ acc < q.1.length ∧
        ∀ r ∈ entries, strContains s r.1 = true → r.1.length ≤ q.1.length := by
  intro entries
  induction entries with
  | nil =>
    rintro acc best ⟨p, hp, -⟩
    exact absurd hp (List.not_mem_nil p)
  | cons p rest ih =>
    rintro acc best ⟨p0, hp0, hc0, hl0⟩
    simp only [bestMatchAux]
    by_cases hp : strContains s p.1 = true ∧ acc < p.1.length
    · rw [if_pos hp]
      by_cases hrest : ∃ r ∈ rest, strContains s r.1 = true ∧ p.1.length < r.1.length
      · obtain ⟨q, hq, hbq, hcq, hlq, hmax⟩ := ih p.1.length (some p.2) hrest
        refine ⟨q, List.mem_cons_of_mem p hq, hbq, hcq, by omega, ?_⟩
        intro r hr hcr
        rcases List.mem_cons.mp hr with rfl | hr'
        · omega
        · exact hmax r hr' hcr
      · push_neg at hrest
        refine ⟨p, List.mem_cons_self p rest, ?_, hp.1, hp.2, ?_⟩
        · exact bestMatchAux_eq_best rest p.1.length (some p.2) hrest
        · intro r hr hcr
          rcases List.mem_cons.mp hr with rfl | hr'
          · exact le_refl _
          · exact hrest r hr' hcr
    · rw [if_neg hp]
      have hex : ∃ r ∈ rest, strContains s r.1 = true ∧ acc < r.1.length := by
        rcases List.mem_cons.mp hp0 with rfl | h0'
        · exact absurd ⟨hc0, hl0⟩ hp
        · exact ⟨p0, h0', hc0, hl0⟩
      obtain ⟨q, hq, hbq, hcq, hlq, hmax⟩ := ih acc best hex
      refine ⟨q, List.mem_cons_of_mem p hq, hbq, hcq, hlq, ?_⟩
      intro r hr hcr
      rcases List.mem_cons.mp hr with rfl | hr'
      · have : ¬ acc < r.1.length := fun hlt => hp ⟨hcr, hlt⟩
        omega
      · exact hmax r hr' hcr

theorem take12_isEmpty (l : List String) : (l.take 12).isEmpty = l.isEmpty := by
  cases l <;> rfl

theorem take12_headD (l : List String) : (l.take 12).headD "" = l.headD "" := by
  cases l <;> rfl

theorem take12_length_gt (l : List String) (k : Nat) (hk : k < 12) :
    ((l.take 12).length > k) ↔ (l.length > k) := by
  simp only [List.length_take]
  omega

theorem take12_getElem? (l : List String) (i : Nat) (hi : i < 12) :
    (l.take 12)[i]? = l[i]? :=
  List.getElem?_take_of_lt hi

theorem take12_slice (l : List String) :
    (((l.take 12).drop 2).take 4) = ((l.drop 2).take 4) := by
  rw [List.drop_take, List.take_take]
  norm_num

/-- The fallback chain reads only the first four plies, so restricting
to the first 12 changes nothing. -/
theorem detect_opening_fallback_take12 (l : List String) :
    detect_opening_fallback (l.take 12) = detect_opening_fallback l := by
  unfold detect_opening_fallback
  simp only [take12_isEmpty, take12_headD, take12_slice,
    take12_length_gt l 1 (by norm_num), take12_length_gt l 2 (by norm_num),
    take12_length_gt l 3 (by norm_num), take12_length_gt l 4 (by norm_num),
    take12_getElem? l 1 (by norm_num), take12_getElem? l 2 (by norm_num),
    take12_getElem? l 3 (by norm_num)]

/-- The whole matcher is insensitive to moves past the 12-ply window. -/
theorem detect_opening_take12 (moves bps : List String) :
    detect_opening moves bps = detect_opening (moves.take 12) bps := by
  simp only [detect_opening]
  have hms : move_string_of (moves.take 12) = move_string_of moves := by
    simp only [move_string_of, List.take_take]
    norm_num
  rw [hms, detect_opening_fallback_take12]

/-- C4: the original claim fails on the code in two ways.  First, the
matcher is not a prefix matcher: it tests each table key as a raw
SUBSTRING of the joined first-12-ply string.  Second, when no table
entry matches, a hard-coded first-move fallback may still return a
generic record instead of the sentinel: for the moves `d4 h6` no table
key occurs in (nor is a prefix of) the move text, yet the matcher
returns "Queen\x27s Pawn Opening", not "Unknown Opening".  The last
conjunct shows the substring behavior: for `d3 d6 Bc4` no opening was
played, but the key "c4" occurs inside the SAN token "Bc4" and the
matcher reports the English Opening. -/
theorem C4_counterexample :
    (detect_opening ["d4", "h6"] []).name = "Queen\x27s Pawn Opening" ∧
    ((detect_opening ["d4", "h6"] []).name == "Unknown Opening") = false ∧
    (OPENING_DATABASE.all fun p =>
      !(strContains (move_string_of ["d4", "h6"]) p.1)) = true ∧
    (OPENING_DATABASE.all fun p =>
      !(p.1.data.isPrefixOf (move_string_of ["d4", "h6"]).data)) = true ∧
    (detect_opening ["d3", "d6", "Bc4"] []).name = "English Opening" := by
  refine ⟨by decide, by decide, by decide, by decide, by decide⟩

/-- C4 (amended): matching is restricted to the first 12 plies (the
result is unchanged by dropping every later move); whenever some table
key occurs as a substring of the joined first-12-ply string, the
matcher returns the table entry of a matching key of maximal length
(ties by table order).  When no key matches, a hard-coded fallback on
the first moves may return a generic record; the sentinel
"Unknown Opening" is returned only when that fallback also fails. -/
theorem C4_amended_longest_substring_window :
    (∀ (moves bps : List String),
      detect_opening moves bps = detect_opening (moves.take 12) bps) ∧
    (∀ (moves bps : List String) (p : String × OpeningInfo),
      p ∈ OPENING_DATABASE → strContains (move_string_of moves) p.1 = true →
      ∃ q ∈ OPENING_DATABASE,
        detect_opening moves bps = q.2 ∧
        strContains (move_string_of moves) q.1 = true ∧
        ∀ r ∈ OPENING_DATABASE, strContains (move_string_of moves) r.1 = true →
          r.1.length ≤ q.1.length) := by
  refine ⟨detect_opening_take12, ?_⟩
  intro moves bps p hp hc
  have hpos : 0 < p.1.length := by
    have hall : ∀ r ∈ OPENING_DATABASE, 0 < r.1.length := by decide
    exact hall p hp
  obtain ⟨q, hq, hb, hcq, _, hmax⟩ :=
    bestMatchAux_maximal OPENING_DATABASE 0 none ⟨p, hp, hc, hpos⟩
  refine ⟨q, hq, ?_, hcq, hmax⟩
  simp only [detect_opening]
  rw [hb]

/-- C4 (amended) — witness: the Sicilian Defense key `e4 c5` matches
the game `1. e4 c5` and the matcher returns its entry. -/
theorem C4_amended_witness :
    ∃ q ∈ OPENING_DATABASE,
      detect_opening ["e4", "c5"] [] = q.2 ∧
      strContains (move_string_of ["e4", "c5"]) q.1 = true ∧
      ∀ r ∈ OPENING_DATABASE, strContains (move_string_of ["e4", "c5"]) r.1 = true →
        r.1.length ≤ q.1.length :=
  C4_amended_longest_substring_window.2 ["e4", "c5"] []
    ("e4 c5", { name := "Sicilian Defense", eco := "B20-B99" }) (by decide) (by decide)

/-! ### Tactical Motif Detector lemmas -/

theorem capture_mem_captureMotifs (b prev : Board) (m : Move) (fp : Piece) :
    ("capture" ∈ captureMotifs b prev m fp) ↔ b.is_capture m = true := by
  unfold captureMotifs
  split_ifs with h
  · simp [h]
  · simp [h]

theorem capture_not_mem_forkMotifs (o : GeometryOracle) (b : Board) (m : Move) (fp : Piece) :
    "capture" ∉ forkMotifs o b m fp := by
  simp only [forkMotifs]
  split_ifs <;> simp

theorem capture_not_mem_pinMotifs (o : GeometryOracle) (b : Board) (m : Move) (fp : Piece) :
    "capture" ∉ pinMotifs o b m fp := by
  unfold pinMotifs
  intro hmem
  rw [List.mem_flatMap] at hmem
  obtain ⟨sq, -, hin⟩ := hmem
  revert hin
  cases b.piece_at sq with
  | none => simp
  | some piece =>
    dsimp only
    split_ifs <;> simp

theorem capture_not_mem_discoveredMotifs (o : GeometryOracle) :
    "capture" ∉ discoveredMotifs o := by
  unfold discoveredMotifs
  split_ifs <;> simp

/-- The `capture` motif is reported exactly when python-chess
`is_capture` holds on the board the detector receives as `board` — the
POST-move board — independently of every geometric oracle value. -/
theorem capture_mem_detect (o : GeometryOracle) (b prev : Board) (m : Move) (fp : Piece)
    (hfp : prev.piece_at m.from_square = some fp) :
    ("capture" ∈ detect_tactical_motif o b m prev) ↔ b.is_capture m = true := by
  unfold detect_tactical_motif
  rw [hfp]
  split_ifs <;>
    simp [capture_mem_captureMotifs, capture_not_mem_forkMotifs, capture_not_mem_pinMotifs,
      capture_not_mem_discoveredMotifs]

/-- C5: the claim ("capture iff the destination held an enemy piece
before the move") is right and the code is wrong: the orchestrator
passes the POST-move board to `detect_tactical_motif`, whose
`board.is_capture(move)` then sees the just-moved piece standing on the
destination square as a piece of the color not to move.  At the quiet
opening move `1. e4` — destination e4 empty beforehand — the detector
nevertheless reports `capture`, whatever the geometric oracles say. -/
theorem C5_code_eval :
    (∀ o : GeometryOracle,
      "capture" ∈ detect_tactical_motif o boardAfterE4 moveE2E4 startBoard) ∧
    startBoard.piece_at moveE2E4.to_square = none ∧
    boardAfterE4.is_capture moveE2E4 = true := by
  refine ⟨?_, by decide, by decide⟩
  intro o
  rw [capture_mem_detect o _ _ _ (⟨WHITE, 1⟩ : Piece) (by decide)]
  decide

/-- Helper: for a ply with objective White-perspective centipawn values
`wb` (before, mover `c` to move) and `wa` (after, opponent to move), the
normalized loss the classifier computes is `wb + wa` — a SUM, not a
difference — because `analyze_position` reads `score.relative`
(side-to-move perspective) while `classify_move` negates again for a
Black mover. -/
theorem pipeline_loss_is_sum (c : Color) (wb wa : Int) (ib : Bool) :
    pipeline_cp_loss c wb wa ib = wb + wa := by
  unfold pipeline_cp_loss
  rw [classify_move_cp_loss]
  have h : centipawn_loss_of
      (analyze_position (.success c [{ score_white := .cp wb, pv := [] }])).evaluation
      (analyze_position (.success (!c) [{ score_white := .cp wa, pv := [] }])).evaluation c
      = ((wb + wa : Int) : ℚ) := by
    cases c <;>
    · simp [analyze_position, evaluationOf, score_relative, Score.neg, centipawn_loss_of,
        WHITE, BLACK]
      push_cast
      ring
  rw [h, pyInt_intCast]

/-- C2: the claim fails on the code, and the spec itself flags the slip:
`analyze_position` reads `score.relative`, the side-to-move perspective,
not a fixed White perspective — a position that stands at −1.00 for
White is reported as +1.00 when Black is to move (first conjunct).
Consequently the loss the classifier computes for a ply is the SUM of
the two objective evaluations (second conjunct), and at the failing
input — White to move, objective evaluation 0 before the move and
−1.00 after it (White simply worsened by 100 centipawns) — the
reported centipawn loss is −100, a negative value classified
`brilliant`, where the claim requires a positive loss (third
conjunct). -/
theorem C2_code_eval :
    (analyze_position (.success BLACK [{ score_white := .cp (-100), pv := [] }])).evaluation
      = 1 ∧
    (∀ (c : Color) (wb wa : Int) (ib : Bool), pipeline_cp_loss c wb wa ib = wb + wa) ∧
    pipeline_cp_loss WHITE 0 (-100) false = -100 ∧ ((-100 : Int) < 0) := by
  refine ⟨?_, fun c wb wa ib => pipeline_loss_is_sum c wb wa ib, ?_, by norm_num⟩
  · norm_num [analyze_position, evaluationOf, score_relative, Score.neg, WHITE, BLACK]
  · rw [pipeline_loss_is_sum]
    norm_num

/-! ### Analyzer and Aggregator lemmas -/

theorem pydiv_eq_some (a b : ℚ) (h : b ≠ 0) : pydiv a b = some (a / b) := by
  simp [pydiv, h]

theorem accuracy_pct_isSome (hits total : Nat) (h : total ≠ 0) :
    (accuracy_pct hits total).isSome = true := by
  have h0 : ((total : Nat) : ℚ) ≠ 0 := Nat.cast_ne_zero.mpr h
  simp [accuracy_pct, pydiv, h0]

theorem accuracy_pct_max_isSome (hits n : Nat) :
    (accuracy_pct hits (max n 1)).isSome = true :=
  accuracy_pct_isSome hits (max n 1) (by omega)

theorem seq9_isSome {α1 α2 α3 α4 α5 α6 α7 α8 α9 β : Type}
    {a1 : Option α1} {a2 : Option α2} {a3 : Option α3} {a4 : Option α4}
    {a5 : Option α5} {a6 : Option α6} {a7 : Option α7} {a8 : Option α8}
    {a9 : Option α9} {k : α1 → α2 → α3 → α4 → α5 → α6 → α7 → α8 → α9 → β}
    (h1 : a1.isSome = true) (h2 : a2.isSome = true) (h3 : a3.isSome = true)
    (h4 : a4.isSome = true) (h5 : a5.isSome = true) (h6 : a6.isSome = true)
    (h7 : a7.isSome = true) (h8 : a8.isSome = true) (h9 : a9.isSome = true) :
    (seq9 a1 a2 a3 a4 a5 a6 a7 a8 a9 k).isSome = true := by
  obtain ⟨v1, rfl⟩ := Option.isSome_iff_exists.mp h1
  obtain ⟨v2, rfl⟩ := Option.isSome_iff_exists.mp h2
  obtain ⟨v3, rfl⟩ := Option.isSome_iff_exists.mp h3
  obtain ⟨v4, rfl⟩ := Option.isSome_iff_exists.mp h4
  obtain ⟨v5, rfl⟩ := Option.isSome_iff_exists.mp h5
  obtain ⟨v6, rfl⟩ := Option.isSome_iff_exists.mp h6
  obtain ⟨v7, rfl⟩ := Option.isSome_iff_exists.mp h7
  obtain ⟨v8, rfl⟩ := Option.isSome_iff_exists.mp h8
  obtain ⟨v9, rfl⟩ := Option.isSome_iff_exists.mp h9
  rfl

theorem white_acpl_isSome (analysis : List MoveRecord) :
    (white_acpl_of analysis).isSome = true := by
  have h : ((max (analysis.filter (fun m => m.player == "White")).length 1 : Nat) : ℚ) ≠ 0 :=
    Nat.cast_ne_zero.mpr (by omega)
  unfold white_acpl_of
  rw [pydiv_eq_some _ _ h]
  rfl

theorem black_acpl_isSome (analysis : List MoveRecord) :
    (black_acpl_of analysis).isSome = true := by
  have h : ((max (analysis.filter (fun m => m.player == "Black")).length 1 : Nat) : ℚ) ≠ 0 :=
    Nat.cast_ne_zero.mpr (by omega)
  unfold black_acpl_of
  rw [pydiv_eq_some _ _ h]
  rfl

/-- C7: an unparsable PGN yields no records.  `chess.pgn.read_game`
returns `None` on empty/exhausted input — the analyzer then returns
the all-`None` quadruple — and a game with no mainline moves on junk
movetext — the analyzer then runs zero loop iterations and returns an
empty record list, the sentinel opening, no motifs, and zero ACPLs.
The embedding is total, so no exception escapes either path. -/
theorem C7_unparsable_no_records :
    analyze_game_with_teaching none = none ∧
    analyze_game_with_teaching (some []) =
      some { analysis := [], opening_info := unknownOpening, tactical_motifs := [],
             acpl_data := some { white_acpl := 0, black_acpl := 0 } } := by
  constructor
  · rfl
  · have hopen : detect_opening [] [] = unknownOpening := by decide
    have hw : white_acpl_of [] = some 0 := by norm_num [white_acpl_of, pydiv]
    have hb : black_acpl_of [] = some 0 := by norm_num [black_acpl_of, pydiv]
    simp [analyze_game_with_teaching, analysisOf, tacticalMotifsOf, hopen, hw, hb]

/-- C8: with the engine unavailable, and likewise when a single
`analyse` call raises, `analyze_position` returns the neutral
placeholder — evaluation 0, no best move, no mate distance, no pv, no
candidate moves — and the analyzer still produces one record per ply,
so the rest of the game's analysis continues. -/
theorem C8_engine_failure_neutral :
    analyze_position EngineOutcome.unavailable = neutralEval ∧
    analyze_position EngineOutcome.failure = neutralEval ∧
    neutralEval.evaluation = 0 ∧ neutralEval.best_move = none ∧
    neutralEval.mate_in = none ∧ neutralEval.pv = [] ∧ neutralEval.top_moves = [] ∧
    (∀ plies : List PlyInput, (analysisOf plies).length = plies.length) := by
  refine ⟨rfl, rfl, rfl, rfl, rfl, rfl, rfl, ?_⟩
  intro plies
  simp [analysisOf]

/-- C9: the original claim (opening ≤ 12, middlegame 13-40, endgame
> 40) fails on the code: the report buckets with boundaries 10 and 30.
A record at move number 12 — opening per the claim — lands in the
middlegame bucket. -/
theorem C9_counterexample :
    sampleRecord12.move_number = 12 ∧
    opening_moves_of [sampleRecord12] = [] ∧
    middlegame_moves_of [sampleRecord12] = [sampleRecord12] ∧
    endgame_moves_of [sampleRecord12] = [] := by
  refine ⟨rfl, ?_, ?_, ?_⟩ <;>
    simp [opening_moves_of, middlegame_moves_of, endgame_moves_of, sampleRecord12]

/-- C9 (amended): the per-phase buckets partition the records by move
number with boundaries: opening ≤ 10, middlegame 11-30, endgame
> 30. -/
theorem C9_amended_phase_boundaries :
    ∀ (analysis : List MoveRecord) (m : MoveRecord),
      (m ∈ opening_moves_of analysis ↔ m ∈ analysis ∧ m.move_number ≤ 10) ∧
      (m ∈ middlegame_moves_of analysis ↔
        m ∈ analysis ∧ 10 < m.move_number ∧ m.move_number ≤ 30) ∧
      (m ∈ endgame_moves_of analysis ↔ m ∈ analysis ∧ 30 < m.move_number) := by
  intro analysis m
  refine ⟨?_, ?_, ?_⟩ <;>
    simp [opening_moves_of, middlegame_moves_of, endgame_moves_of, List.mem_filter,
      and_assoc]

/-- C10: every denominator in the aggregation is guarded — the ACPLs
divide by `max(count, 1)`, the report's percentages divide by
`max(count, 1)` or by a count established non-zero by a guard (the
empty-analysis early return for `total_moves`, the `if endgame_moves`
guard for the endgame accuracy) — so the per-player ACPLs always
exist, the whole report always exists, and an empty analysis yields the
empty report rather than an error. -/
theorem C10_guarded_denominators :
    (∀ analysis : List MoveRecord,
      (white_acpl_of analysis).isSome = true ∧ (black_acpl_of analysis).isSome = true) ∧
    (∀ plies : List PlyInput, ∃ g, analyze_game_with_teaching (some plies) = some g ∧
      (g.acpl_data).isSome = true) ∧
    (∀ (analysis : List MoveRecord) (oi : OpeningInfo) (tms : List TacticalEntry),
      (generate_comprehensive_report analysis oi tms).isSome = true) ∧
    (∀ (oi : OpeningInfo) (tms : List TacticalEntry),
      generate_comprehensive_report [] oi tms = some emptyReport) := by
  refine ⟨fun analysis => ⟨white_acpl_isSome analysis, black_acpl_isSome analysis⟩, ?_, ?_, ?_⟩
  · intro plies
    refine ⟨_, rfl, ?_⟩
    simp only [analyze_game_with_teaching]
    obtain ⟨w, hw⟩ := Option.isSome_iff_exists.mp (white_acpl_isSome (analysisOf plies))
    obtain ⟨b, hb⟩ := Option.isSome_iff_exists.mp (black_acpl_isSome (analysisOf plies))
    rw [hw, hb]
    rfl
  · intro analysis oi tms
    by_cases ha : analysis = []
    · subst ha
      rfl
    · have hlen : analysis.length ≠ 0 := fun h => ha (List.length_eq_zero.mp h)
      simp only [generate_comprehensive_report, if_neg ha]
      apply seq9_isSome
      · split_ifs with h
        · exact accuracy_pct_isSome _ _ (by omega)
        · rfl
      · split_ifs with h
        · have hne : (endgame_moves_of analysis).length ≠ 0 :=
            fun h0 => h (List.length_eq_zero.mp h0)
          obtain ⟨v, hv⟩ := Option.isSome_iff_exists.mp (accuracy_pct_isSome
            ((endgame_moves_of analysis).filter
              (fun m => isAccurateType m.classification.type)).length
            (endgame_moves_of analysis).length hne)
          rw [hv]
          rfl
        · rfl
      · exact accuracy_pct_max_isSome _ _
      · exact accuracy_pct_max_isSome _ _
      · exact accuracy_pct_isSome _ _ hlen
      · have hne : ((max analysis.length 1 : Nat) : ℚ) ≠ 0 :=
          Nat.cast_ne_zero.mpr (by omega)
        rw [pydiv_eq_some _ _ hne]
        rfl
      · split_ifs with h
        · exact accuracy_pct_max_isSome _ _
        · rfl
      · split_ifs with h
        · exact accuracy_pct_max_isSome _ _
        · rfl
      · split_ifs with h
        · exact accuracy_pct_max_isSome _ _
        · rfl
  · intro oi tms
    rfl

end ChessCoach
